import Mathlib

/-!
Shallow embedding of `src/daemon.py` (class `Daemon`): a minimal Unix
daemonization helper with `daemonize`, `_get_pid_from_file`, `start`,
`status`, `stop` and an abstract `run`.  Machine-level effects (fork,
chdir, umask, setsid, dup2, file writes, atexit registration, signal
installation, kill, stream output) are modelled as an explicit event
trace together with an explicit process/filesystem state.
-/

/-- ASCII decimal digit test, as used by Python `int()` on the relevant
inputs: a character between '0' (48) and '9' (57). -/
def isDig (c : Char) : Bool := 48 ≤ c.toNat && c.toNat ≤ 57

/-- Numeric value of an ASCII digit character. -/
def digVal (c : Char) : Nat := c.toNat - 48

/-- The decimal digit character for `d` (meaningful for `d < 10`). -/
def decChar (d : Nat) : Char := Char.ofNat (48 + d)

/-- Python `str.strip()` whitespace: space, \t, \n, \r, \v (11), \f (12). -/
def isPySpace (c : Char) : Bool :=
  (c.toNat == 32) || (c.toNat == 9) || (c.toNat == 10) ||
  (c.toNat == 13) || (c.toNat == 11) || (c.toNat == 12)

/-- Python `s.strip()`: drop leading and trailing whitespace. -/
def pyStrip (l : List Char) : List Char :=
  ((l.dropWhile isPySpace).reverse.dropWhile isPySpace).reverse

/-- Parse a nonempty all-digit character list as a natural number
(the unsigned core of Python `int()`). -/
def pyIntNonneg (l : List Char) : Option Nat :=
  if l.isEmpty then none
  else if l.all isDig then some (l.foldl (fun a c => a * 10 + digVal c) 0)
  else none

/-- Python `int(s)` on an already-stripped string: an optional sign
followed by a nonempty run of decimal digits; anything else raises
`ValueError` (modelled as `none`). -/
def pyInt (l : List Char) : Option Int :=
  if l.isEmpty then none
  else if l.head? = some '-' then (pyIntNonneg l.tail).map (fun m => -(m : Int))
  else if l.head? = some '+' then (pyIntNonneg l.tail).map (fun m => (m : Int))
  else (pyIntNonneg l).map (fun m => (m : Int))

/-- Python `str(n)` for a natural number: big-endian decimal digits,
with `"0"` for zero. -/
def pyStrOfNat (n : Nat) : List Char :=
  if n = 0 then ['0'] else ((Nat.digits 10 n).map decChar).reverse

/-- The content written to the PID file by `daemonize`
(`print(self.pid, file=f)`, src/daemon.py:53): `str(pid)` plus a
trailing newline. -/
def pidFileContent (pid : Nat) : String :=
  String.mk (pyStrOfNat pid ++ ['\n'])

/-- The read side of `_get_pid_from_file` (src/daemon.py:67):
`int(f.read().strip())`, with `none` for `ValueError`. -/
def readPidContent (s : String) : Option Int :=
  pyInt (pyStrip s.data)

/-- Output channel of the controlling terminal: `sys.stdout` or
`sys.stderr` of the process. -/
inductive OutChan
  | stdoutC
  | stderrC
deriving DecidableEq

/-- State of the PID file on disk.  `unreadable` models a file that
exists but whose `open`/`read` raises `IOError` (e.g. permissions);
`readable` carries the file's text content. -/
inductive FileState
  | absent
  | unreadable (content : String)
  | readable (content : String)
deriving DecidableEq

/-- Configuration held by a `Daemon` instance (src/daemon.py:12-16);
the source defaults every stream target to `/dev/null`. -/
structure DaemonConfig where
  pidfile : String
  stdin : String
  stdout : String
  stderr : String
deriving DecidableEq

/-- Disposition of SIGTERM for the process: OS default (abrupt
termination), or the installed handler that raises `SystemExit(code)`. -/
inductive SigAction
  | dfl
  | exitWith (code : Nat)
deriving DecidableEq

/-- Observable process/filesystem state relevant to `daemon.py`. -/
structure ProcState where
  pid : Nat
  cwd : String
  umaskVal : Nat
  ownSession : Bool
  fdIn : String
  fdOut : String
  fdErr : String
  pidfile : FileState
  cleanupRegistered : Bool
  sigterm : SigAction
deriving DecidableEq

/-- One observable effect of running a command: an OS call or a write
to one of the standard streams.  `forkParentExit child` models
`os.fork()` succeeding, the parent exiting with status 0, and execution
continuing in the child whose pid is `child`. -/
inductive Step
  | forkParentExit (child : Nat)
  | chdirStep (path : String)
  | umaskStep (mask : Nat)
  | setsidStep
  | flushStep (c : OutChan)
  | dup2Step (target : String) (fd : Nat)
  | writePidStep (pid : Nat)
  | atexitRegisterStep
  | sigtermInstallStep
  | outputStep (c : OutChan) (msg : String)
  | killStep (pid : Int)
  | runStep
deriving DecidableEq

/-- Result of `os.fork()`: success with the child's pid, or `OSError`. -/
inductive ForkResult
  | ok (child : Nat)
  | fail
deriving DecidableEq

/-- How a command terminated: normal return, process exit via
`SystemExit code`, or an uncaught fatal exception (`RuntimeError`,
message attached). -/
inductive Outcome
  | ok
  | exited (code : Nat)
  | fatal (msg : String)
deriving DecidableEq

/-- A finished command: its termination mode, the resulting
process/filesystem state, and the trace of effects it performed. -/
structure CmdResult where
  outcome : Outcome
  state : ProcState
  events : List Step
deriving DecidableEq

/-- Python's `atexit` machinery at process exit: the registered cleanup
`os.remove(self.pidfile)` (src/daemon.py:56) deletes the PID file. -/
def runAtexit (st : ProcState) : ProcState :=
  if st.cleanupRegistered then { st with pidfile := FileState.absent } else st

/-- Effect of `raise SystemExit(code)` reaching the interpreter's top level: the
process exits with `code`, running any registered atexit handlers. -/
def processExit (code : Nat) (st : ProcState) (ev : List Step) : CmdResult :=
  { outcome := Outcome.exited code, state := runAtexit st, events := ev }

/-- The diagnostic of `_get_pid_from_file` for non-numeric content
(src/daemon.py:73); emitted by `print`, so a newline is appended. -/
def malformedMsg (pf : String) : String :=
  "Error: PID file " ++ pf ++ " exists but PID is not a number."

/-- Python `str(pid)` where `pid` is `None` or an integer, as printed by
`print(pid)` (src/daemon.py:80). -/
def pyShowOptPid : Option Int → String
  | none => "None"
  | some p => toString p

/-- src/daemon.py:86. -/
def alreadyRunningMsg (p : Int) (pf : String) : String :=
  "Daemon already running...PID: " ++ toString p ++ ", PID file: " ++ pf ++ "\n"

/-- src/daemon.py:94. -/
def runningMsg (p : Int) (pf : String) : String :=
  "Daemon running...PID: " ++ toString p ++ ", PID file: " ++ pf ++ "\n"

/-- src/daemon.py:92 and src/daemon.py:100. -/
def notRunningMsg : String := "Daemon not running.\n"

/-- src/daemon.py:82. -/
def startingMsg : String := "Daemon starting...\n"

/-- src/daemon.py:102. -/
def stoppingMsg : String := "Stopping daemon...\n"

/-- Result of `_get_pid_from_file`: a returned value (`None` or the
parsed pid), or the `SystemExit(1)` taken on non-numeric content. -/
inductive PidReadResult
  | got (pid : Option Int)
  | malformedExit
deriving DecidableEq

/-- Model of `Daemon._get_pid_from_file` (src/daemon.py:64-75): open and read
the PID file and parse the stripped content with `int`.  Any `IOError`
(absent or unreadable file) yields `None`; a `ValueError` from `int`
prints the malformed diagnostic (via `print`, i.e. to stdout) and
raises `SystemExit(1)`. -/
def getPidFromFile (pf : String) (fs : FileState) : PidReadResult × List Step :=
  match fs with
  | FileState.absent => (PidReadResult.got none, [])
  | FileState.unreadable _ => (PidReadResult.got none, [])
  | FileState.readable s =>
    match readPidContent s with
    | some p => (PidReadResult.got (some p), [])
    | none =>
      (PidReadResult.malformedExit,
        [Step.outputStep OutChan.stdoutC (malformedMsg pf ++ "\n")])

/-- Model of `Daemon.daemonize` (src/daemon.py:18-62), following the process
that survives each fork.  On fork failure the `RuntimeError` message is
returned together with the state and events accumulated so far. -/
def daemonize (cfg : DaemonConfig) (f1 f2 : ForkResult) (st : ProcState) :
    Except (String × ProcState × List Step) (ProcState × List Step) :=
  match f1 with
  | ForkResult.fail => Except.error ("fork #1 failed.", st, [])
  | ForkResult.ok c1 =>
    let st := { st with pid := c1 }
    let ev := [Step.forkParentExit c1]
    let st := { st with cwd := "/" }
    let ev := ev ++ [Step.chdirStep "/"]
    let st := { st with umaskVal := 0 }
    let ev := ev ++ [Step.umaskStep 0]
    let st := { st with ownSession := true }
    let ev := ev ++ [Step.setsidStep]
    match f2 with
    | ForkResult.fail => Except.error ("fork #2 failed.", st, ev)
    | ForkResult.ok c2 =>
      let st := { st with pid := c2 }
      let ev := ev ++ [Step.forkParentExit c2]
      let ev := ev ++ [Step.flushStep OutChan.stdoutC, Step.flushStep OutChan.stderrC]
      let st := { st with fdIn := cfg.stdin }
      let ev := ev ++ [Step.dup2Step cfg.stdin 0]
      let st := { st with fdOut := cfg.stdout }
      let ev := ev ++ [Step.dup2Step cfg.stdout 1]
      let st := { st with fdErr := cfg.stderr }
      let ev := ev ++ [Step.dup2Step cfg.stderr 2]
      let st := { st with pidfile := FileState.readable (pidFileContent c2) }
      let ev := ev ++ [Step.writePidStep c2]
      let st := { st with cleanupRegistered := true }
      let ev := ev ++ [Step.atexitRegisterStep]
      let st := { st with sigterm := SigAction.exitWith 1 }
      let ev := ev ++ [Step.sigtermInstallStep]
      Except.ok (st, ev)

/-- Model of `Daemon.start` (src/daemon.py:77-86).  Note the bare `print(pid)`
on line 80, which writes the read pid (or `None`) to stdout before the
branch. -/
def start (cfg : DaemonConfig) (f1 f2 : ForkResult) (st : ProcState) : CmdResult :=
  match getPidFromFile cfg.pidfile st.pidfile with
  | (PidReadResult.malformedExit, ev) => processExit 1 st ev
  | (PidReadResult.got pid, ev) =>
    let ev := ev ++ [Step.outputStep OutChan.stdoutC (pyShowOptPid pid ++ "\n")]
    match pid with
    | none =>
      let ev := ev ++ [Step.outputStep OutChan.stderrC startingMsg]
      match daemonize cfg f1 f2 st with
      | Except.error (msg, st', dev) =>
        { outcome := Outcome.fatal msg, state := runAtexit st', events := ev ++ dev }
      | Except.ok (st', dev) =>
        { outcome := Outcome.ok, state := st', events := ev ++ dev ++ [Step.runStep] }
    | some p =>
      { outcome := Outcome.ok, state := st,
        events := ev ++ [Step.outputStep OutChan.stderrC (alreadyRunningMsg p cfg.pidfile)] }

/-- Model of `Daemon.status` (src/daemon.py:88-94). -/
def status (cfg : DaemonConfig) (st : ProcState) : CmdResult :=
  match getPidFromFile cfg.pidfile st.pidfile with
  | (PidReadResult.malformedExit, ev) => processExit 1 st ev
  | (PidReadResult.got none, ev) =>
    { outcome := Outcome.ok, state := st,
      events := ev ++ [Step.outputStep OutChan.stderrC notRunningMsg] }
  | (PidReadResult.got (some p), ev) =>
    { outcome := Outcome.ok, state := st,
      events := ev ++ [Step.outputStep OutChan.stderrC (runningMsg p cfg.pidfile)] }

/-- Model of `Daemon.stop` (src/daemon.py:96-103). -/
def stop (cfg : DaemonConfig) (st : ProcState) : CmdResult :=
  match getPidFromFile cfg.pidfile st.pidfile with
  | (PidReadResult.malformedExit, ev) => processExit 1 st ev
  | (PidReadResult.got none, ev) =>
    { outcome := Outcome.ok, state := st,
      events := ev ++ [Step.outputStep OutChan.stderrC notRunningMsg] }
  | (PidReadResult.got (some p), ev) =>
    { outcome := Outcome.ok, state := st,
      events := ev ++ [Step.outputStep OutChan.stderrC stoppingMsg, Step.killStep p] }

/-- OS outcome of delivering SIGTERM to the process. -/
inductive SigOutcome
  | killedBySignal
  | exitedWith (code : Nat)
deriving DecidableEq

/-- Delivery of SIGTERM: with the default disposition the process is
terminated abruptly (no atexit handlers run); with the installed
handler (src/daemon.py:59-62) `SystemExit(1)` is raised, producing a
normal exit that runs the registered atexit handlers. -/
def deliverSigterm (st : ProcState) : SigOutcome × ProcState :=
  match st.sigterm with
  | SigAction.dfl => (SigOutcome.killedBySignal, st)
  | SigAction.exitWith c => (SigOutcome.exitedWith c, runAtexit st)

/-- The messages a command wrote to a given channel, in order. -/
def CmdResult.msgsOn (r : CmdResult) (c : OutChan) : List String :=
  r.events.filterMap fun e =>
    match e with
    | Step.outputStep c' m => if c' = c then some m else none
    | _ => none

/-- The pids a command sent SIGTERM to, in order. -/
def CmdResult.signalsSent (r : CmdResult) : List Int :=
  r.events.filterMap fun e =>
    match e with
    | Step.killStep p => some p
    | _ => none

/-- A PID file whose content exists, is readable, and fails to parse
as an integer. -/
def pidfileMalformed : FileState → Bool
  | FileState.readable s => (readPidContent s).isNone
  | _ => false

/-- The value `_get_pid_from_file` returns when it does not exit:
`None` on any `IOError`, otherwise the parsed content. -/
def pidReadOf : FileState → Option Int
  | FileState.absent => none
  | FileState.unreadable _ => none
  | FileState.readable s => readPidContent s

/-- Kinds of top-level statements of `src/daemon.py`, as far as
Python's `__future__` placement rule cares. -/
inductive PyStmt
  | importStmt (modName : String)
  | futureImport (feature : String)
  | docstring
  | classDef (cName : String)
  | ifMainBlock
deriving DecidableEq

/-- The top-level statement sequence of `src/daemon.py` (lines 4-142):
`import atexit`, then `from __future__ import print_function`, then the
remaining imports, the class definition and the self-test block. -/
def daemonModuleBody : List PyStmt :=
  [ PyStmt.importStmt "atexit",
    PyStmt.futureImport "print_function",
    PyStmt.importStmt "os",
    PyStmt.importStmt "signal",
    PyStmt.importStmt "sys",
    PyStmt.importStmt "time",
    PyStmt.classDef "Daemon",
    PyStmt.ifMainBlock ]

/-- Statements Python's grammar allows before a `__future__` import:
only the module docstring (plus comments/blank lines, which are not
statements) and other `__future__` imports. -/
def canPrecedeFuture : PyStmt → Bool
  | PyStmt.docstring => true
  | PyStmt.futureImport _ => true
  | _ => false

/-- No `__future__` import occurs in the list. -/
def noFutureImport (l : List PyStmt) : Bool :=
  l.all fun s =>
    match s with
    | PyStmt.futureImport _ => false
    | _ => true

/-- Python's placement rule for `from __future__ import ...` (Language
Reference §future statements, all versions): every `__future__` import
must be preceded only by the docstring and other `__future__` imports;
a module violating this fails to compile with `SyntaxError`, so no code
in it can run. -/
def futurePlacementOk : List PyStmt → Bool
  | [] => true
  | s :: rest =>
    if canPrecedeFuture s then futurePlacementOk rest else noFutureImport rest

/-- A Python module loads (compiles) only if its `__future__` imports
are placed legally. -/
def moduleCompiles (l : List PyStmt) : Bool := futurePlacementOk l

/-- A concrete configuration for witnesses, matching the self-test
instance (src/daemon.py:131). -/
def cfgEx : DaemonConfig :=
  { pidfile := "/tmp/daemon.pid", stdin := "/dev/null",
    stdout := "/tmp/daemon.log", stderr := "/tmp/daemon.log" }

/-- A concrete pre-daemonization process state for witnesses. -/
def stInit : ProcState :=
  { pid := 500, cwd := "/home/user", umaskVal := 18, ownSession := false,
    fdIn := "/dev/tty", fdOut := "/dev/tty", fdErr := "/dev/tty",
    pidfile := FileState.absent, cleanupRegistered := false,
    sigterm := SigAction.dfl }

/-- The daemonized process state reached from `stInit` under `cfgEx`
with second-fork child pid 102. -/
def stDaemonEx : ProcState :=
  { pid := 102, cwd := "/", umaskVal := 0, ownSession := true,
    fdIn := "/dev/null", fdOut := "/tmp/daemon.log", fdErr := "/tmp/daemon.log",
    pidfile := FileState.readable (pidFileContent 102),
    cleanupRegistered := true, sigterm := SigAction.exitWith 1 }

/-- The event trace of a successful `daemonize` under `cfgEx` with
child pids 101 and 102. -/
def evDaemonEx : List Step :=
  [Step.forkParentExit 101, Step.chdirStep "/", Step.umaskStep 0, Step.setsidStep,
   Step.forkParentExit 102, Step.flushStep OutChan.stdoutC, Step.flushStep OutChan.stderrC,
   Step.dup2Step "/dev/null" 0, Step.dup2Step "/tmp/daemon.log" 1,
   Step.dup2Step "/tmp/daemon.log" 2,
   Step.writePidStep 102, Step.atexitRegisterStep, Step.sigtermInstallStep]

theorem isDig_decChar (d : Nat) (h : d < 10) : isDig (decChar d) = true := by
  interval_cases d <;> decide

theorem digVal_decChar (d : Nat) (h : d < 10) : digVal (decChar d) = d := by
  interval_cases d <;> decide

theorem isPySpace_of_isDig (c : Char) (h : isDig c = true) : isPySpace c = false := by
  simp only [isDig, Bool.and_eq_true, decide_eq_true_eq] at h
  simp only [isPySpace, Bool.or_eq_false_iff, beq_eq_false_iff_ne, ne_eq]
  omega

theorem pyStrOfNat_all_dig (n : Nat) : ∀ c ∈ pyStrOfNat n, isDig c = true := by
  intro c hc
  unfold pyStrOfNat at hc
  by_cases h0 : n = 0
  · simp [h0] at hc
    subst hc; decide
  · simp only [h0, if_false, List.mem_reverse, List.mem_map] at hc
    obtain ⟨d, hd, rfl⟩ := hc
    exact isDig_decChar d (Nat.digits_lt_base (by norm_num) hd)

theorem pyStrOfNat_ne_nil (n : Nat) : pyStrOfNat n ≠ [] := by
  unfold pyStrOfNat
  by_cases h0 : n = 0
  · simp [h0]
  · simp only [h0, if_false, ne_eq, List.reverse_eq_nil_iff, List.map_eq_nil_iff]
    exact Nat.digits_ne_nil_iff_ne_zero.mpr h0

theorem dropWhile_no_space (l : List Char) (h : ∀ c ∈ l, isDig c = true) :
    l.dropWhile isPySpace = l := by
  cases l with
  | nil => rfl
  | cons a as =>
    rw [List.dropWhile_cons, isPySpace_of_isDig a (h a (by simp))]
    simp

theorem pyStrip_digits (l : List Char) (hne : l ≠ []) (hall : ∀ c ∈ l, isDig c = true) :
    pyStrip (l ++ ['\n']) = l := by
  unfold pyStrip
  have h1 : (l ++ ['\n']).dropWhile isPySpace = l ++ ['\n'] := by
    cases l with
    | nil => exact absurd rfl hne
    | cons a as =>
      rw [List.cons_append, List.dropWhile_cons,
        isPySpace_of_isDig a (hall a (by simp))]
      simp
  rw [h1, List.reverse_append]
  have h3 : l.reverse.dropWhile isPySpace = l.reverse :=
    dropWhile_no_space _ (fun c hc => hall c (List.mem_reverse.mp hc))
  have h2 : isPySpace '\n' = true := by decide
  simp only [List.reverse_cons, List.reverse_nil, List.nil_append, List.singleton_append,
    List.dropWhile_cons]
  simp [h2, h3]

theorem foldl_decChar (L : List Nat) (hL : ∀ d ∈ L, d < 10) (acc : Nat) :
    ((L.map decChar).reverse).foldl (fun a c => a * 10 + digVal c) acc
      = acc * 10 ^ L.length + Nat.ofDigits 10 L := by
  induction L generalizing acc with
  | nil => simp
  | cons d T ih =>
    simp only [List.map_cons, List.reverse_cons, List.foldl_append, List.foldl_cons,
      List.foldl_nil]
    rw [ih (fun x hx => hL x (List.mem_cons_of_mem _ hx)),
      digVal_decChar d (hL d (List.mem_cons_self _ _)), Nat.ofDigits_cons,
      List.length_cons, pow_succ]
    ring

theorem readPid_roundtrip (n : Nat) : readPidContent (pidFileContent n) = some (n : Int) := by
  by_cases h0 : n = 0
  · subst h0; decide
  · unfold readPidContent pidFileContent
    have hdata : (String.mk (pyStrOfNat n ++ ['\n'])).data = pyStrOfNat n ++ ['\n'] := rfl
    rw [hdata, pyStrip_digits _ (pyStrOfNat_ne_nil n) (pyStrOfNat_all_dig n)]
    obtain ⟨c, rest, hcr⟩ := List.exists_cons_of_ne_nil (pyStrOfNat_ne_nil n)
    have hdigc : isDig c = true := pyStrOfNat_all_dig n c (by rw [hcr]; simp)
    have hcm : c ≠ '-' := by
      intro hc; rw [hc] at hdigc; exact absurd hdigc (by decide)
    have hcp : c ≠ '+' := by
      intro hc; rw [hc] at hdigc; exact absurd hdigc (by decide)
    unfold pyInt
    rw [if_neg (by simp [List.isEmpty_iff, pyStrOfNat_ne_nil n]),
      if_neg (by rw [hcr]; simp [hcm]),
      if_neg (by rw [hcr]; simp [hcp])]
    have hnn : pyIntNonneg (pyStrOfNat n) = some n := by
      unfold pyIntNonneg
      rw [if_neg (by simp [List.isEmpty_iff, pyStrOfNat_ne_nil n]),
        if_pos (List.all_eq_true.mpr (pyStrOfNat_all_dig n))]
      have hrep : pyStrOfNat n = ((Nat.digits 10 n).map decChar).reverse := by
        unfold pyStrOfNat; rw [if_neg h0]
      rw [hrep, foldl_decChar _ (fun d hd => Nat.digits_lt_base (by norm_num) hd) 0,
        Nat.ofDigits_digits]
      simp
    rw [hnn]
    rfl

theorem getPid_readable_some (pf : String) (s : String) (p : Int)
    (hp : readPidContent s = some p) :
    getPidFromFile pf (FileState.readable s) = (PidReadResult.got (some p), []) := by
  simp [getPidFromFile, hp]

theorem getPid_readable_none (pf : String) (s : String)
    (hp : readPidContent s = none) :
    getPidFromFile pf (FileState.readable s) =
      (PidReadResult.malformedExit,
        [Step.outputStep OutChan.stdoutC (malformedMsg pf ++ "\n")]) := by
  simp [getPidFromFile, hp]

theorem daemonize_ok (cfg : DaemonConfig) (c1 c2 : Nat) (st : ProcState) :
    daemonize cfg (ForkResult.ok c1) (ForkResult.ok c2) st =
      Except.ok
        ({ st with
            pid := c2
            cwd := "/"
            umaskVal := 0
            ownSession := true
            fdIn := cfg.stdin
            fdOut := cfg.stdout
            fdErr := cfg.stderr
            pidfile := FileState.readable (pidFileContent c2)
            cleanupRegistered := true
            sigterm := SigAction.exitWith 1 },
          [Step.forkParentExit c1, Step.chdirStep "/", Step.umaskStep 0, Step.setsidStep,
           Step.forkParentExit c2, Step.flushStep OutChan.stdoutC, Step.flushStep OutChan.stderrC,
           Step.dup2Step cfg.stdin 0, Step.dup2Step cfg.stdout 1, Step.dup2Step cfg.stderr 2,
           Step.writePidStep c2, Step.atexitRegisterStep, Step.sigtermInstallStep]) := rfl

theorem start_absent_eq (cfg : DaemonConfig) (c1 c2 : Nat) (st : ProcState)
    (h : st.pidfile = FileState.absent) :
    start cfg (ForkResult.ok c1) (ForkResult.ok c2) st =
      { outcome := Outcome.ok
        state := { st with
          pid := c2
          cwd := "/"
          umaskVal := 0
          ownSession := true
          fdIn := cfg.stdin
          fdOut := cfg.stdout
          fdErr := cfg.stderr
          pidfile := FileState.readable (pidFileContent c2)
          cleanupRegistered := true
          sigterm := SigAction.exitWith 1 }
        events :=
          [Step.outputStep OutChan.stdoutC (pyShowOptPid none ++ "\n"),
           Step.outputStep OutChan.stderrC startingMsg,
           Step.forkParentExit c1, Step.chdirStep "/", Step.umaskStep 0, Step.setsidStep,
           Step.forkParentExit c2, Step.flushStep OutChan.stdoutC, Step.flushStep OutChan.stderrC,
           Step.dup2Step cfg.stdin 0, Step.dup2Step cfg.stdout 1, Step.dup2Step cfg.stderr 2,
           Step.writePidStep c2, Step.atexitRegisterStep, Step.sigtermInstallStep,
           Step.runStep] } := by
  unfold start
  rw [h]
  rfl

theorem start_readable_eq (cfg : DaemonConfig) (f1 f2 : ForkResult) (st : ProcState)
    (s : String) (p : Int)
    (hfs : st.pidfile = FileState.readable s) (hp : readPidContent s = some p) :
    start cfg f1 f2 st =
      { outcome := Outcome.ok
        state := st
        events := [Step.outputStep OutChan.stdoutC (pyShowOptPid (some p) ++ "\n"),
                   Step.outputStep OutChan.stderrC (alreadyRunningMsg p cfg.pidfile)] } := by
  unfold start
  rw [hfs, getPid_readable_some cfg.pidfile s p hp]
  rfl

theorem start_unreadable_eq (cfg : DaemonConfig) (c1 c2 : Nat) (st : ProcState)
    (s : String) (h : st.pidfile = FileState.unreadable s) :
    start cfg (ForkResult.ok c1) (ForkResult.ok c2) st =
      { outcome := Outcome.ok
        state := { st with
          pid := c2
          cwd := "/"
          umaskVal := 0
          ownSession := true
          fdIn := cfg.stdin
          fdOut := cfg.stdout
          fdErr := cfg.stderr
          pidfile := FileState.readable (pidFileContent c2)
          cleanupRegistered := true
          sigterm := SigAction.exitWith 1 }
        events :=
          [Step.outputStep OutChan.stdoutC (pyShowOptPid none ++ "\n"),
           Step.outputStep OutChan.stderrC startingMsg,
           Step.forkParentExit c1, Step.chdirStep "/", Step.umaskStep 0, Step.setsidStep,
           Step.forkParentExit c2, Step.flushStep OutChan.stdoutC, Step.flushStep OutChan.stderrC,
           Step.dup2Step cfg.stdin 0, Step.dup2Step cfg.stdout 1, Step.dup2Step cfg.stderr 2,
           Step.writePidStep c2, Step.atexitRegisterStep, Step.sigtermInstallStep,
           Step.runStep] } := by
  unfold start
  rw [h]
  rfl

theorem start_malformed_eq (cfg : DaemonConfig) (f1 f2 : ForkResult) (st : ProcState)
    (s : String) (hfs : st.pidfile = FileState.readable s)
    (hbad : readPidContent s = none) :
    start cfg f1 f2 st =
      processExit 1 st [Step.outputStep OutChan.stdoutC (malformedMsg cfg.pidfile ++ "\n")] := by
  unfold start
  rw [hfs, getPid_readable_none cfg.pidfile s hbad]

theorem status_absent_eq (cfg : DaemonConfig) (st : ProcState)
    (h : st.pidfile = FileState.absent) :
    status cfg st =
      { outcome := Outcome.ok
        state := st
        events := [Step.outputStep OutChan.stderrC notRunningMsg] } := by
  unfold status
  rw [h]
  rfl

theorem status_unreadable_eq (cfg : DaemonConfig) (st : ProcState) (s : String)
    (h : st.pidfile = FileState.unreadable s) :
    status cfg st =
      { outcome := Outcome.ok
        state := st
        events := [Step.outputStep OutChan.stderrC notRunningMsg] } := by
  unfold status
  rw [h]
  rfl

theorem status_readable_some_eq (cfg : DaemonConfig) (st : ProcState) (s : String) (p : Int)
    (hfs : st.pidfile = FileState.readable s) (hp : readPidContent s = some p) :
    status cfg st =
      { outcome := Outcome.ok
        state := st
        events := [Step.outputStep OutChan.stderrC (runningMsg p cfg.pidfile)] } := by
  unfold status
  rw [hfs, getPid_readable_some cfg.pidfile s p hp]
  rfl

theorem status_malformed_eq (cfg : DaemonConfig) (st : ProcState) (s : String)
    (hfs : st.pidfile = FileState.readable s) (hbad : readPidContent s = none) :
    status cfg st =
      processExit 1 st [Step.outputStep OutChan.stdoutC (malformedMsg cfg.pidfile ++ "\n")] := by
  unfold status
  rw [hfs, getPid_readable_none cfg.pidfile s hbad]

theorem stop_absent_eq (cfg : DaemonConfig) (st : ProcState)
    (h : st.pidfile = FileState.absent) :
    stop cfg st =
      { outcome := Outcome.ok
        state := st
        events := [Step.outputStep OutChan.stderrC notRunningMsg] } := by
  unfold stop
  rw [h]
  rfl

theorem stop_unreadable_eq (cfg : DaemonConfig) (st : ProcState) (s : String)
    (h : st.pidfile = FileState.unreadable s) :
    stop cfg st =
      { outcome := Outcome.ok
        state := st
        events := [Step.outputStep OutChan.stderrC notRunningMsg] } := by
  unfold stop
  rw [h]
  rfl

theorem stop_readable_some_eq (cfg : DaemonConfig) (st : ProcState) (s : String) (p : Int)
    (hfs : st.pidfile = FileState.readable s) (hp : readPidContent s = some p) :
    stop cfg st =
      { outcome := Outcome.ok
        state := st
        events := [Step.outputStep OutChan.stderrC stoppingMsg, Step.killStep p] } := by
  unfold stop
  rw [hfs, getPid_readable_some cfg.pidfile s p hp]
  rfl

theorem stop_malformed_eq (cfg : DaemonConfig) (st : ProcState) (s : String)
    (hfs : st.pidfile = FileState.readable s) (hbad : readPidContent s = none) :
    stop cfg st =
      processExit 1 st [Step.outputStep OutChan.stdoutC (malformedMsg cfg.pidfile ++ "\n")] := by
  unfold stop
  rw [hfs, getPid_readable_none cfg.pidfile s hbad]

/-- Claim C1: `daemonize()` performs, in exactly this order: fork #1
with the parent exiting successfully, `chdir('/')` and `umask(0)`,
`setsid()`, fork #2 with the session leader exiting, flushing of
stdout and stderr, replacement of file descriptors 0, 1, 2 with the
configured redirection targets, writing the pid to the PID file,
registration of the PID-file-deleting atexit action, and installation
of the SIGTERM handler; only then does `start()` invoke `run()`. -/
theorem daemonize_order_and_run_last (cfg : DaemonConfig) (st : ProcState)
    (c1 c2 : Nat) (h : st.pidfile = FileState.absent) :
    (start cfg (ForkResult.ok c1) (ForkResult.ok c2) st).events =
      [Step.outputStep OutChan.stdoutC (pyShowOptPid none ++ "\n"),
       Step.outputStep OutChan.stderrC startingMsg,
       Step.forkParentExit c1,
       Step.chdirStep "/", Step.umaskStep 0,
       Step.setsidStep,
       Step.forkParentExit c2,
       Step.flushStep OutChan.stdoutC, Step.flushStep OutChan.stderrC,
       Step.dup2Step cfg.stdin 0, Step.dup2Step cfg.stdout 1, Step.dup2Step cfg.stderr 2,
       Step.writePidStep c2,
       Step.atexitRegisterStep,
       Step.sigtermInstallStep,
       Step.runStep] := by
  rw [start_absent_eq cfg c1 c2 st h]

/-- Witness for C1 at the self-test configuration with child pids 101
and 102. -/
theorem daemonize_order_and_run_last_witness :
    stInit.pidfile = FileState.absent ∧
    (start cfgEx (ForkResult.ok 101) (ForkResult.ok 102) stInit).events =
      [Step.outputStep OutChan.stdoutC "None\n",
       Step.outputStep OutChan.stderrC startingMsg,
       Step.forkParentExit 101, Step.chdirStep "/", Step.umaskStep 0, Step.setsidStep,
       Step.forkParentExit 102, Step.flushStep OutChan.stdoutC, Step.flushStep OutChan.stderrC,
       Step.dup2Step "/dev/null" 0, Step.dup2Step "/tmp/daemon.log" 1,
       Step.dup2Step "/tmp/daemon.log" 2,
       Step.writePidStep 102, Step.atexitRegisterStep, Step.sigtermInstallStep,
       Step.runStep] :=
  ⟨rfl, daemonize_order_and_run_last cfgEx stInit 101 102 rfl⟩

/-- Claim C2: `from __future__ import print_function` (src/daemon.py:5)
appears after `import atexit` (src/daemon.py:4); Python's placement
rule for future statements (identical in every Python version) rejects
this, so the module fails to compile and `start`/`stop`/`status`/`run`
can never execute. -/
theorem future_import_misplaced_module_fails :
    moduleCompiles daemonModuleBody = false ∧
    daemonModuleBody.head? = some (PyStmt.importStmt "atexit") ∧
    daemonModuleBody.get? 1 = some (PyStmt.futureImport "print_function") ∧
    canPrecedeFuture (PyStmt.importStmt "atexit") = false := by
  decide

/-- Claim C3: for every configuration, `start()` with the PID file
absent succeeds, leaves the PID file existing with content that parses
back to exactly the final daemon's pid (the child of the second fork,
a positive integer), records that pid as the daemon's own, and invokes
`run()` as its final action. -/
theorem start_absent_creates_pidfile_and_runs (cfg : DaemonConfig) (st : ProcState)
    (c1 c2 : Nat) (h : st.pidfile = FileState.absent) (hpos : 0 < c2) :
    (start cfg (ForkResult.ok c1) (ForkResult.ok c2) st).outcome = Outcome.ok ∧
    (start cfg (ForkResult.ok c1) (ForkResult.ok c2) st).state.pidfile =
      FileState.readable (pidFileContent c2) ∧
    (start cfg (ForkResult.ok c1) (ForkResult.ok c2) st).state.pid = c2 ∧
    readPidContent (pidFileContent c2) = some (c2 : Int) ∧
    (0 : Int) < (c2 : Int) ∧
    ((start cfg (ForkResult.ok c1) (ForkResult.ok c2) st).events).getLast? =
      some Step.runStep := by
  rw [start_absent_eq cfg c1 c2 st h]
  refine ⟨rfl, rfl, rfl, readPid_roundtrip c2, by exact_mod_cast hpos, rfl⟩

/-- Witness for C3 at the self-test configuration, final pid 102. -/
theorem start_absent_creates_pidfile_and_runs_witness :
    stInit.pidfile = FileState.absent ∧ 0 < 102 ∧
    ((start cfgEx (ForkResult.ok 101) (ForkResult.ok 102) stInit).outcome = Outcome.ok ∧
     (start cfgEx (ForkResult.ok 101) (ForkResult.ok 102) stInit).state.pidfile =
       FileState.readable (pidFileContent 102) ∧
     (start cfgEx (ForkResult.ok 101) (ForkResult.ok 102) stInit).state.pid = 102 ∧
     readPidContent (pidFileContent 102) = some (102 : Int) ∧
     (0 : Int) < (102 : Int) ∧
     ((start cfgEx (ForkResult.ok 101) (ForkResult.ok 102) stInit).events).getLast? =
       some Step.runStep) :=
  ⟨rfl, by decide,
    start_absent_creates_pidfile_and_runs cfgEx stInit 101 102 rfl (by decide)⟩

/-- Counterexample to C4: with the PID file present and well-formed
(`"1234\n"`), `start()` does not emit only the already-running notice
on stderr: line 80's `print(pid)` first writes `1234` to stdout. -/
theorem start_present_single_stderr_refuted :
    ¬ ((start cfgEx (ForkResult.ok 101) (ForkResult.ok 102)
          { stInit with pidfile := FileState.readable "1234\n" }).events =
        [Step.outputStep OutChan.stderrC (alreadyRunningMsg 1234 cfgEx.pidfile)]) := by
  decide

/-- Claim C4 as amended: with the PID file present and well-formed,
`start()` returns normally with the state untouched (no fork, no PID
file write, no handler installation -- the trace holds no such steps),
emitting exactly the read pid on stdout followed by the
already-running notice on stderr. -/
theorem start_present_echoes_pid_no_side_effects (cfg : DaemonConfig)
    (f1 f2 : ForkResult) (st : ProcState) (s : String) (p : Int)
    (hfs : st.pidfile = FileState.readable s) (hp : readPidContent s = some p) :
    start cfg f1 f2 st =
      { outcome := Outcome.ok
        state := st
        events := [Step.outputStep OutChan.stdoutC (pyShowOptPid (some p) ++ "\n"),
                   Step.outputStep OutChan.stderrC (alreadyRunningMsg p cfg.pidfile)] } :=
  start_readable_eq cfg f1 f2 st s p hfs hp

/-- Witness for amended C4 at PID file content `"1234\n"`. -/
theorem start_present_echoes_pid_no_side_effects_witness :
    ({ stInit with pidfile := FileState.readable "1234\n" } : ProcState).pidfile =
      FileState.readable "1234\n" ∧
    readPidContent "1234\n" = some 1234 ∧
    start cfgEx (ForkResult.ok 101) (ForkResult.ok 102)
        { stInit with pidfile := FileState.readable "1234\n" } =
      { outcome := Outcome.ok
        state := { stInit with pidfile := FileState.readable "1234\n" }
        events := [Step.outputStep OutChan.stdoutC (pyShowOptPid (some 1234) ++ "\n"),
                   Step.outputStep OutChan.stderrC (alreadyRunningMsg 1234 cfgEx.pidfile)] } :=
  ⟨rfl, by decide,
    start_present_echoes_pid_no_side_effects cfgEx (ForkResult.ok 101) (ForkResult.ok 102)
      { stInit with pidfile := FileState.readable "1234\n" } "1234\n" 1234 rfl (by decide)⟩

/-- Claim C5: when the PID file is readable but its content does not
parse as an integer, `start()`, `stop()` and `status()` each exit with
status 1 after emitting only the malformed-PID diagnostic, leaving the
process state (in particular the PID file) exactly as it was: the
trace holds no fork, no signal, no write. -/
theorem malformed_pidfile_fatal_all_commands (cfg : DaemonConfig)
    (f1 f2 : ForkResult) (st : ProcState) (s : String)
    (hfs : st.pidfile = FileState.readable s) (hbad : readPidContent s = none)
    (hc : st.cleanupRegistered = false) :
    start cfg f1 f2 st =
      { outcome := Outcome.exited 1
        state := st
        events := [Step.outputStep OutChan.stdoutC (malformedMsg cfg.pidfile ++ "\n")] } ∧
    stop cfg st =
      { outcome := Outcome.exited 1
        state := st
        events := [Step.outputStep OutChan.stdoutC (malformedMsg cfg.pidfile ++ "\n")] } ∧
    status cfg st =
      { outcome := Outcome.exited 1
        state := st
        events := [Step.outputStep OutChan.stdoutC (malformedMsg cfg.pidfile ++ "\n")] } := by
  refine ⟨?_, ?_, ?_⟩
  · rw [start_malformed_eq cfg f1 f2 st s hfs hbad]
    simp [processExit, runAtexit, hc]
  · rw [stop_malformed_eq cfg st s hfs hbad]
    simp [processExit, runAtexit, hc]
  · rw [status_malformed_eq cfg st s hfs hbad]
    simp [processExit, runAtexit, hc]

/-- Witness for C5 at PID file content `"abc"`. -/
theorem malformed_pidfile_fatal_all_commands_witness :
    ({ stInit with pidfile := FileState.readable "abc" } : ProcState).pidfile =
      FileState.readable "abc" ∧
    readPidContent "abc" = none ∧
    ({ stInit with pidfile := FileState.readable "abc" } : ProcState).cleanupRegistered
      = false ∧
    (start cfgEx (ForkResult.ok 101) (ForkResult.ok 102)
        { stInit with pidfile := FileState.readable "abc" } =
      { outcome := Outcome.exited 1
        state := { stInit with pidfile := FileState.readable "abc" }
        events := [Step.outputStep OutChan.stdoutC (malformedMsg cfgEx.pidfile ++ "\n")] } ∧
    stop cfgEx { stInit with pidfile := FileState.readable "abc" } =
      { outcome := Outcome.exited 1
        state := { stInit with pidfile := FileState.readable "abc" }
        events := [Step.outputStep OutChan.stdoutC (malformedMsg cfgEx.pidfile ++ "\n")] } ∧
    status cfgEx { stInit with pidfile := FileState.readable "abc" } =
      { outcome := Outcome.exited 1
        state := { stInit with pidfile := FileState.readable "abc" }
        events := [Step.outputStep OutChan.stdoutC (malformedMsg cfgEx.pidfile ++ "\n")] }) :=
  ⟨rfl, by decide, rfl,
    malformed_pidfile_fatal_all_commands cfgEx (ForkResult.ok 101) (ForkResult.ok 102)
      { stInit with pidfile := FileState.readable "abc" } "abc" rfl (by decide) rfl⟩

/-- Counterexample to C6: with PID file content `"abc"`, the
malformed-PID diagnostic of `status()` is written by `print` to the
standard output stream, not to the error stream. -/
theorem malformed_diag_on_stdout_refutes :
    ¬ ((status cfgEx
          { stInit with pidfile := FileState.readable "abc" }).msgsOn OutChan.stdoutC = []) := by
  decide

/-- Claim C6 as amended: the already-running, not-running, starting,
stopping and running notices all go to the error stream, but the
malformed-PID diagnostic goes to standard output, and `start()`
additionally echoes the read pid (or `None`) to standard output.  The
statement characterizes both streams of all three commands for every
PID file state. -/
theorem diagnostics_stream_characterization (cfg : DaemonConfig) (st : ProcState)
    (f1 f2 : ForkResult) :
    ((status cfg st).msgsOn OutChan.stdoutC =
      if pidfileMalformed st.pidfile then [malformedMsg cfg.pidfile ++ "\n"] else []) ∧
    ((status cfg st).msgsOn OutChan.stderrC =
      if pidfileMalformed st.pidfile then []
      else match pidReadOf st.pidfile with
        | none => [notRunningMsg]
        | some p => [runningMsg p cfg.pidfile]) ∧
    ((stop cfg st).msgsOn OutChan.stdoutC =
      if pidfileMalformed st.pidfile then [malformedMsg cfg.pidfile ++ "\n"] else []) ∧
    ((stop cfg st).msgsOn OutChan.stderrC =
      if pidfileMalformed st.pidfile then []
      else match pidReadOf st.pidfile with
        | none => [notRunningMsg]
        | some _ => [stoppingMsg]) ∧
    ((start cfg f1 f2 st).msgsOn OutChan.stdoutC =
      if pidfileMalformed st.pidfile then [malformedMsg cfg.pidfile ++ "\n"]
      else [pyShowOptPid (pidReadOf st.pidfile) ++ "\n"]) ∧
    ((start cfg f1 f2 st).msgsOn OutChan.stderrC =
      if pidfileMalformed st.pidfile then []
      else match pidReadOf st.pidfile with
        | none => [startingMsg]
        | some p => [alreadyRunningMsg p cfg.pidfile]) := by
  rcases hst : st.pidfile with _ | s | s
  · rcases f1 with c1 | _ <;> rcases f2 with c2 | _ <;>
      simp [status_absent_eq cfg st hst, stop_absent_eq cfg st hst,
        pidfileMalformed, pidReadOf, hst, CmdResult.msgsOn, start, getPidFromFile,
        daemonize, runAtexit]
  · rcases f1 with c1 | _ <;> rcases f2 with c2 | _ <;>
      simp [status_unreadable_eq cfg st s hst, stop_unreadable_eq cfg st s hst,
        pidfileMalformed, pidReadOf, hst, CmdResult.msgsOn, start, getPidFromFile,
        daemonize, runAtexit]
  · rcases hrc : readPidContent s with _ | p
    · simp [status_malformed_eq cfg st s hst hrc, stop_malformed_eq cfg st s hst hrc,
        start_malformed_eq cfg f1 f2 st s hst hrc,
        pidfileMalformed, pidReadOf, hst, hrc, CmdResult.msgsOn, processExit, runAtexit]
    · simp [status_readable_some_eq cfg st s p hst hrc, stop_readable_some_eq cfg st s p hst hrc,
        start_readable_eq cfg f1 f2 st s p hst hrc,
        pidfileMalformed, pidReadOf, hst, hrc, CmdResult.msgsOn]

/-- Counterexample to C7: a PID file that exists (is not absent) with
well-formed content `"1234\n"` but unreadable (its open raises
`IOError`): `stop()` sends no signal at all, refuting "sends the
termination signal iff the PID file is present and well-formed". -/
theorem stop_present_wellformed_no_signal :
    ({ stInit with pidfile := FileState.unreadable "1234\n" } : ProcState).pidfile ≠
      FileState.absent ∧
    readPidContent "1234\n" = some 1234 ∧
    (stop cfgEx { stInit with pidfile := FileState.unreadable "1234\n" }).signalsSent = [] ∧
    (stop cfgEx { stInit with pidfile := FileState.unreadable "1234\n" }).events =
      [Step.outputStep OutChan.stderrC notRunningMsg] := by
  decide

/-- Claim C7 as amended: `stop()` sends SIGTERM to `p` if and only if
reading the PID file succeeds and its content parses to `p`; when the
read raises `IOError` (file absent or unreadable) it reports
not-running with no signal and no error; and `stop()` never removes or
modifies the PID file. -/
theorem stop_signal_iff_read_ok (cfg : DaemonConfig) (st : ProcState)
    (hc : st.cleanupRegistered = false) :
    (stop cfg st).state.pidfile = st.pidfile ∧
    (∀ p : Int, (stop cfg st).signalsSent = [p] ↔
      ∃ s, st.pidfile = FileState.readable s ∧ readPidContent s = some p) ∧
    ((st.pidfile = FileState.absent ∨ (∃ s, st.pidfile = FileState.unreadable s)) →
      stop cfg st =
        { outcome := Outcome.ok
          state := st
          events := [Step.outputStep OutChan.stderrC notRunningMsg] }) := by
  rcases hst : st.pidfile with _ | s | s
  · rw [stop_absent_eq cfg st hst]
    simp [CmdResult.signalsSent, hst]
  · rw [stop_unreadable_eq cfg st s hst]
    simp [CmdResult.signalsSent, hst]
  · rcases hrc : readPidContent s with _ | p
    · rw [stop_malformed_eq cfg st s hst hrc]
      simp [CmdResult.signalsSent, processExit, runAtexit, hc, hst, hrc]
    · rw [stop_readable_some_eq cfg st s p hst hrc]
      refine ⟨hst, ?_, ?_⟩
      · intro q
        constructor
        · intro hq
          simp [CmdResult.signalsSent] at hq
          exact ⟨s, rfl, by rw [hrc, hq]⟩
        · rintro ⟨s', hs', hq⟩
          injection hs' with hss
          subst hss
          rw [hrc] at hq
          injection hq with hq
          simp [CmdResult.signalsSent, hq]
      · rintro (habs | ⟨s', hs'⟩)
        · simp at habs
        · simp at hs'

/-- Witness for amended C7 at PID file content `"1234\n"`. -/
theorem stop_signal_iff_read_ok_witness :
    ({ stInit with pidfile := FileState.readable "1234\n" } : ProcState).cleanupRegistered
      = false ∧
    ((stop cfgEx { stInit with pidfile := FileState.readable "1234\n" }).state.pidfile =
      ({ stInit with pidfile := FileState.readable "1234\n" } : ProcState).pidfile ∧
    (∀ p : Int,
      (stop cfgEx { stInit with pidfile := FileState.readable "1234\n" }).signalsSent = [p] ↔
      ∃ s, ({ stInit with pidfile := FileState.readable "1234\n" } : ProcState).pidfile =
          FileState.readable s ∧ readPidContent s = some p) ∧
    ((({ stInit with pidfile := FileState.readable "1234\n" } : ProcState).pidfile =
        FileState.absent ∨
      (∃ s, ({ stInit with pidfile := FileState.readable "1234\n" } : ProcState).pidfile =
        FileState.unreadable s)) →
      stop cfgEx { stInit with pidfile := FileState.readable "1234\n" } =
        { outcome := Outcome.ok
          state := { stInit with pidfile := FileState.readable "1234\n" }
          events := [Step.outputStep OutChan.stderrC notRunningMsg] })) :=
  ⟨rfl, stop_signal_iff_read_ok cfgEx
    { stInit with pidfile := FileState.readable "1234\n" } rfl⟩

/-- Claim C8: in any state produced by a successful `daemonize`,
delivering SIGTERM triggers the installed handler, which makes the
process exit with status 1 (not abrupt signal death), and that normal
exit runs the registered atexit cleanup, deleting the PID file. -/
theorem sigterm_exits_one_and_removes_pidfile (cfg : DaemonConfig)
    (st st' : ProcState) (c1 c2 : Nat) (ev : List Step)
    (hd : daemonize cfg (ForkResult.ok c1) (ForkResult.ok c2) st =
      Except.ok (st', ev)) :
    (deliverSigterm st').1 = SigOutcome.exitedWith 1 ∧
    (deliverSigterm st').2.pidfile = FileState.absent := by
  rw [daemonize_ok cfg c1 c2 st] at hd
  injection hd with hd
  injection hd with hst hev
  subst hst
  exact ⟨rfl, rfl⟩

/-- Witness for C8: the daemonized state under `cfgEx` with child
pids 101 and 102. -/
theorem sigterm_exits_one_and_removes_pidfile_witness :
    daemonize cfgEx (ForkResult.ok 101) (ForkResult.ok 102) stInit =
      Except.ok (stDaemonEx, evDaemonEx) ∧
    (deliverSigterm stDaemonEx).1 = SigOutcome.exitedWith 1 ∧
    (deliverSigterm stDaemonEx).2.pidfile = FileState.absent :=
  ⟨rfl, sigterm_exits_one_and_removes_pidfile cfgEx stInit stDaemonEx 101 102 evDaemonEx rfl⟩

/-- Claim C9: for every process id (in particular 1234), writing it to
the PID file (`str(pid)` plus newline) and reading it back (strip,
then `int`) yields exactly the value written. -/
theorem pidfile_roundtrip (pid : Nat) :
    readPidContent (pidFileContent pid) = some (pid : Int) :=
  readPid_roundtrip pid

/-- Claim C10: every `IOError` on opening or reading the PID file maps
to `None` -- an unreadable-but-existing file behaves exactly like an
absent one -- so `start()` with an unreadable PID file daemonizes a
second instance (double fork, PID file overwritten, `run()` invoked)
instead of reporting already-running or failing. -/
theorem unreadable_pidfile_start_daemonizes (cfg : DaemonConfig) (st : ProcState)
    (c1 c2 : Nat) (s : String) (hfs : st.pidfile = FileState.unreadable s) :
    getPidFromFile cfg.pidfile st.pidfile = (PidReadResult.got none, []) ∧
    start cfg (ForkResult.ok c1) (ForkResult.ok c2) st =
      { outcome := Outcome.ok
        state := { st with
          pid := c2
          cwd := "/"
          umaskVal := 0
          ownSession := true
          fdIn := cfg.stdin
          fdOut := cfg.stdout
          fdErr := cfg.stderr
          pidfile := FileState.readable (pidFileContent c2)
          cleanupRegistered := true
          sigterm := SigAction.exitWith 1 }
        events :=
          [Step.outputStep OutChan.stdoutC (pyShowOptPid none ++ "\n"),
           Step.outputStep OutChan.stderrC startingMsg,
           Step.forkParentExit c1, Step.chdirStep "/", Step.umaskStep 0, Step.setsidStep,
           Step.forkParentExit c2, Step.flushStep OutChan.stdoutC, Step.flushStep OutChan.stderrC,
           Step.dup2Step cfg.stdin 0, Step.dup2Step cfg.stdout 1, Step.dup2Step cfg.stderr 2,
           Step.writePidStep c2, Step.atexitRegisterStep, Step.sigtermInstallStep,
           Step.runStep] } := by
  constructor
  · rw [hfs]
    rfl
  · exact start_unreadable_eq cfg c1 c2 st s hfs

/-- Witness for C10 at an existing, well-formed, unreadable PID file. -/
theorem unreadable_pidfile_start_daemonizes_witness :
    ({ stInit with pidfile := FileState.unreadable "1234\n" } : ProcState).pidfile =
      FileState.unreadable "1234\n" ∧
    (getPidFromFile cfgEx.pidfile
        ({ stInit with pidfile := FileState.unreadable "1234\n" } : ProcState).pidfile =
      (PidReadResult.got none, []) ∧
    start cfgEx (ForkResult.ok 101) (ForkResult.ok 102)
        { stInit with pidfile := FileState.unreadable "1234\n" } =
      { outcome := Outcome.ok
        state := { stInit with
          pid := 102
          cwd := "/"
          umaskVal := 0
          ownSession := true
          fdIn := "/dev/null"
          fdOut := "/tmp/daemon.log"
          fdErr := "/tmp/daemon.log"
          pidfile := FileState.readable (pidFileContent 102)
          cleanupRegistered := true
          sigterm := SigAction.exitWith 1 }
        events :=
          [Step.outputStep OutChan.stdoutC "None\n",
           Step.outputStep OutChan.stderrC startingMsg,
           Step.forkParentExit 101, Step.chdirStep "/", Step.umaskStep 0, Step.setsidStep,
           Step.forkParentExit 102, Step.flushStep OutChan.stdoutC, Step.flushStep OutChan.stderrC,
           Step.dup2Step "/dev/null" 0, Step.dup2Step "/tmp/daemon.log" 1,
           Step.dup2Step "/tmp/daemon.log" 2,
           Step.writePidStep 102, Step.atexitRegisterStep, Step.sigtermInstallStep,
           Step.runStep] }) :=
  ⟨rfl, unreadable_pidfile_start_daemonizes cfgEx
    { stInit with pidfile := FileState.unreadable "1234\n" } 101 102 "1234\n" rfl⟩
